import Mathlib

/-!
Verification of the SweetTreat swipe-feed core: a shallow embedding of
`src/services/swipeService.ts` and the swipe screen's navigator and gesture
logic (`app/(tabs)/swipe.tsx`), with theorems settling the specification's
claims about them.

Numeric values (ratings, coordinates, gesture translations) are modelled as
exact rationals; timestamps as integers.  The remote Postgres store is the
external collaborator: it is modelled as explicit list-valued tables with the
uniqueness behaviour the service code relies on (error code 23505 on a
duplicate (user_id, restaurant_id) insert, as handled at
swipeService.ts:21/35/63).
-/

deriving instance DecidableEq for Except

namespace SweetTreat

/-- Verdict stored in a `swipe_history` row: the source writes the string
'right' for a save and 'left' for a skip. -/
inductive SwipeAction where
  | right
  | left
deriving DecidableEq

/-- A row of the `restaurants` table, restricted to the columns the swipe
feed reads: `id`, `rating` (nullable REAL), `created_at`, `latitude`,
`longitude`. -/
structure Restaurant where
  id : String
  rating : Option ℚ
  createdAt : ℤ
  latitude : ℚ
  longitude : ℚ
deriving DecidableEq

/-- A row of `swipe_history`, restricted to the columns the service writes
and reads: user_id, restaurant_id, action. -/
structure SwipeRecord where
  userId : String
  restaurantId : String
  action : SwipeAction
deriving DecidableEq

/-- A row of `saved_restaurants`: user_id, restaurant_id. -/
structure SavedRecord where
  userId : String
  restaurantId : String
deriving DecidableEq

/-- The remote store's state: the three tables the swipe service touches. -/
structure Store where
  restaurants : List Restaurant
  saved : List SavedRecord
  history : List SwipeRecord
deriving DecidableEq

/-- Postgres error code for a unique-constraint violation, the literal
'23505' the service compares against. -/
def dupErr : String := "23505"

/-- The set of restaurant ids the user has already swiped on, as the service
computes it at swipeService.ts:91-98: project `restaurant_id` out of the
user's `swipe_history` rows. -/
def swipedIds (s : Store) (u : String) : List String :=
  (s.history.filter fun rec => decide (rec.userId = u)).map (·.restaurantId)

/-- Remote `insert` into `saved_restaurants`: the store enforces uniqueness
of (user_id, restaurant_id) and reports a duplicate with error code 23505;
otherwise the row is appended. -/
def insertSaved (s : Store) (u r : String) : Store × Option String :=
  if SavedRecord.mk u r ∈ s.saved then (s, some dupErr)
  else ({ s with saved := s.saved ++ [⟨u, r⟩] }, none)

/-- Remote `insert` into `swipe_history`: uniqueness of
(user_id, restaurant_id) — regardless of action — reported as 23505. -/
def insertHistory (s : Store) (u r : String) (a : SwipeAction) :
    Store × Option String :=
  if r ∈ swipedIds s u then (s, some dupErr)
  else ({ s with history := s.history ++ [⟨u, r, a⟩] }, none)

/-- The service's response handling for one insert, the pattern
`if (error && error.code !== '23505') throw error` (swipeService.ts:21,35,63):
a duplicate conflict is success, any other error code is surfaced. -/
def insertRespLogic (err : Option String) : Except String Unit :=
  match err with
  | some code => if code ≠ dupErr then Except.error code else Except.ok ()
  | none => Except.ok ()

/-- Control flow of `saveRestaurant` as a function of the two remote
responses (swipeService.ts:9-45): if the saved-insert fails with a
non-duplicate code the error is thrown and the history insert is not
reached; otherwise the history response is handled the same way. -/
def saveRestaurantLogic (saveError historyError : Option String) :
    Except String Unit :=
  match insertRespLogic saveError with
  | Except.error code => Except.error code
  | Except.ok _ => insertRespLogic historyError

/-- Control flow of `skipRestaurant` as a function of the remote response
(swipeService.ts:51-73). -/
def skipRestaurantLogic (historyError : Option String) : Except String Unit :=
  insertRespLogic historyError

/-- The `swipe_history` insert step of `saveRestaurant`
(swipeService.ts:26-38), against the modelled store. -/
def saveHistoryStep (s : Store) (userId restaurantId : String) :
    Store × Except String Unit :=
  let step := insertHistory s userId restaurantId SwipeAction.right
  match step.2 with
  | some code =>
    if code ≠ dupErr then (step.1, Except.error code) else (step.1, Except.ok ())
  | none => (step.1, Except.ok ())

/-- `swipeService.saveRestaurant` (swipeService.ts:9-45) against the modelled
store: insert into `saved_restaurants`, throw on a non-duplicate error, then
insert into `swipe_history` with action 'right', throw on a non-duplicate
error. -/
def saveRestaurant (s : Store) (userId restaurantId : String) :
    Store × Except String Unit :=
  let step1 := insertSaved s userId restaurantId
  match step1.2 with
  | some code =>
    if code ≠ dupErr then (step1.1, Except.error code)
    else saveHistoryStep step1.1 userId restaurantId
  | none => saveHistoryStep step1.1 userId restaurantId

/-- `swipeService.skipRestaurant` (swipeService.ts:51-73) against the
modelled store: insert into `swipe_history` with action 'left', treating a
duplicate conflict as success. -/
def skipRestaurant (s : Store) (userId restaurantId : String) :
    Store × Except String Unit :=
  let step := insertHistory s userId restaurantId SwipeAction.left
  match step.2 with
  | some code =>
    if code ≠ dupErr then (step.1, Except.error code) else (step.1, Except.ok ())
  | none => (step.1, Except.ok ())

/-- `swipeService.removeSavedRestaurant` (swipeService.ts:181-194): DELETE
from `saved_restaurants` where user_id and restaurant_id match. -/
def removeSavedRestaurant (s : Store) (userId restaurantId : String) : Store :=
  { s with
    saved := s.saved.filter fun rec =>
      decide ¬(rec.userId = userId ∧ rec.restaurantId = restaurantId) }

/-- Rating key used by the feed ordering, with a NULL rating sorting first
under descending order (Postgres NULLS FIRST default for DESC). -/
def ratingVal (q : Option ℚ) : WithTop ℚ :=
  match q with
  | none => ⊤
  | some x => (x : WithTop ℚ)

/-- `a` comes no later than `b` in the feed order requested at
swipeService.ts:115: rating descending, then created_at descending. -/
def feedBefore (a b : Restaurant) : Prop :=
  ratingVal b.rating < ratingVal a.rating ∨
    (ratingVal a.rating = ratingVal b.rating ∧ b.createdAt ≤ a.createdAt)

instance : DecidableRel feedBefore := fun a b => by
  unfold feedBefore; infer_instance

/-- Options of `getUnswipedRestaurants` (swipeService.ts:81-85). -/
structure FeedOptions where
  latitude : Option ℚ
  longitude : Option ℚ
  limit : Nat
deriving DecidableEq

/-- The bounding-box deltas of swipeService.ts:105-106. -/
def latDelta : ℚ := 45/100

def lonDelta : ℚ := 45/100

/-- The location bounding-box filter of swipeService.ts:104-112: applied only
when both latitude and longitude are provided. -/
def locFilter (opts : FeedOptions) (rs : List Restaurant) : List Restaurant :=
  match opts.latitude, opts.longitude with
  | some lat, some lon =>
    rs.filter fun r =>
      decide (lat - latDelta ≤ r.latitude) && decide (r.latitude ≤ lat + latDelta) &&
        decide (lon - lonDelta ≤ r.longitude) && decide (r.longitude ≤ lon + lonDelta)
  | _, _ => rs

/-- The raw page the remote query returns (swipeService.ts:100-120): the
location-filtered `restaurants` table in feed order, truncated to
`limit * 3` rows. -/
def rawFetch (s : Store) (opts : FeedOptions) : List Restaurant :=
  (List.insertionSort feedBefore (locFilter opts s.restaurants)).take
    (opts.limit * 3)

/-- `swipeService.getUnswipedRestaurants` (swipeService.ts:79-133): fetch the
user's swiped ids, fetch `limit * 3` ordered candidates, filter out the
swiped ones, and return the first `limit`. -/
def getUnswipedRestaurants (s : Store) (u : String) (opts : FeedOptions) :
    List Restaurant :=
  ((rawFetch s opts).filter fun r => decide (r.id ∉ swipedIds s u)).take
    opts.limit

/-- The swipe screen's card state (swipe.tsx:37-38): the loaded restaurant
list and the current card index. -/
structure NavState where
  restaurants : List Restaurant
  currentIndex : Nat
deriving DecidableEq

/-- The alert message shown when recording a swipe fails (swipe.tsx:115). -/
def alertMsg : String := "Failed to save swipe. Please try again."

/-- `handleSwipe` (swipe.tsx:91-121) as a function of the record call's
result: if no current card exists the handler returns without effect;
otherwise on success the index advances by one, and on failure the state is
left unchanged and an alert is reported. -/
def handleSwipeWith (st : NavState) (recordResult : Except String Unit) :
    NavState × Option String :=
  if st.currentIndex < st.restaurants.length then
    match recordResult with
    | Except.ok _ => ({ st with currentIndex := st.currentIndex + 1 }, none)
    | Except.error _ => (st, some alertMsg)
  else (st, none)

/-- Swipe direction as passed to `handleSwipe`. -/
inductive Direction where
  | left
  | right
deriving DecidableEq

/-- `handleSwipe` composed with the service call it makes (swipe.tsx:103-112):
save on a right swipe, skip on a left swipe, then advance only on success. -/
def handleSwipe (store : Store) (st : NavState) (u : String) (dir : Direction) :
    Store × NavState × Option String :=
  match st.restaurants.get? st.currentIndex with
  | none => (store, st, none)
  | some current =>
    let call :=
      match dir with
      | Direction.right => saveRestaurant store u current.id
      | Direction.left => skipRestaurant store u current.id
    match call.2 with
    | Except.ok _ => (call.1, { st with currentIndex := st.currentIndex + 1 }, none)
    | Except.error _ => (call.1, st, some alertMsg)

/-- One navigator-affecting event of a swipe-screen session:
`loadOk feed` is a successful `loadRestaurants` (swipe.tsx:72-73: set the
list, reset the index to 0); `loadFail` is its catch path (swipe.tsx:77: set
the list to [] without resetting the index); `swipe` is a `handleSwipe` call
with the given record result. -/
inductive NavOp where
  | loadOk (feed : List Restaurant)
  | loadFail
  | swipe (recordResult : Except String Unit)

/-- Recognizer for the failed-load event, used to state which sessions avoid
the catch path of `loadRestaurants`. -/
def isLoadFail : NavOp → Bool
  | NavOp.loadFail => true
  | _ => false

/-- Effect of one session event on the card state. -/
def applyOp (st : NavState) (op : NavOp) : NavState :=
  match op with
  | NavOp.loadOk feed => ⟨feed, 0⟩
  | NavOp.loadFail => ⟨[], st.currentIndex⟩
  | NavOp.swipe res => (handleSwipeWith st res).1

/-- Effect of a session (a list of events) on the card state. -/
def applyOps (st : NavState) (ops : List NavOp) : NavState :=
  ops.foldl applyOp st

/-- Initial card state (swipe.tsx:37-38): empty list, index 0. -/
def navInit : NavState := ⟨[], 0⟩

/-- A pan-gesture end event, with the fields react-native-gesture-handler
delivers; the handler at swipe.tsx:135-165 reads only `translationX`. -/
structure GestureEvent where
  translationX : ℚ
  translationY : ℚ
  velocityX : ℚ
  velocityY : ℚ
deriving DecidableEq

/-- The gesture axis threshold (swipe.tsx:33). -/
def SWIPE_THRESHOLD : ℚ := 120

/-- Outcome of classifying a gesture: save (right), skip (left), or snap
back with no decision. -/
inductive SwipeOutcome where
  | accept
  | reject
  | cancel
deriving DecidableEq

/-- The gesture classification of `panGesture.onEnd` (swipe.tsx:135-165):
if |translationX| exceeds the threshold, the swipe commits in the direction
of its sign; otherwise the card springs back and no decision is made. -/
def classifyGesture (event : GestureEvent) : SwipeOutcome :=
  let swipeDistance := event.translationX
  if |swipeDistance| > SWIPE_THRESHOLD then
    if swipeDistance > 0 then SwipeOutcome.accept else SwipeOutcome.reject
  else SwipeOutcome.cancel

/-- The operations `swipeService` exposes (swipeService.ts:4-263). -/
inductive ServiceOp where
  | save (userId restaurantId : String)
  | skip (userId restaurantId : String)
  | getUnswiped (userId : String) (opts : FeedOptions)
  | getSaved (userId : String)
  | getSavedCount (userId : String)
  | removeSaved (userId restaurantId : String)
  | isSaved (userId restaurantId : String)
  | isSwiped (userId restaurantId : String)
  | getHistory (userId : String) (limit : Nat)

/-- State effect of each service operation.  `getUnswipedRestaurants`,
`getSavedRestaurants`, `getSavedRestaurantsCount`, `isRestaurantSaved`,
`isRestaurantSwiped` and `getSwipeHistory` only run SELECT queries
(swipeService.ts:79-262), so they leave the store unchanged. -/
def applyService (s : Store) (op : ServiceOp) : Store :=
  match op with
  | ServiceOp.save u r => (saveRestaurant s u r).1
  | ServiceOp.skip u r => (skipRestaurant s u r).1
  | ServiceOp.removeSaved u r => removeSavedRestaurant s u r
  | _ => s

/-- Feed options with no location filter and the given page size. -/
def noLoc (limit : Nat) : FeedOptions := ⟨none, none, limit⟩

/-- Scenario candidate A: rank 5, first inserted. -/
def candA : Restaurant := ⟨"A", some 5, 1, 0, 0⟩

/-- Scenario candidate B: rank 3, second inserted. -/
def candB : Restaurant := ⟨"B", some 3, 2, 0, 0⟩

/-- Scenario candidate C: rank 3, third inserted. -/
def candC : Restaurant := ⟨"C", some 3, 3, 0, 0⟩

/-- Scenario candidate D: rank 1, fourth inserted. -/
def candD : Restaurant := ⟨"D", some 1, 4, 0, 0⟩

/-- Scenario store: candidates A, B, C, D, and user "u" has already decided
on B. -/
def scenarioStore : Store :=
  ⟨[candA, candB, candC, candD], [], [⟨"u", "B", SwipeAction.left⟩]⟩

/-- A store whose ranked order starts with three already-decided candidates:
with page size 1 the single 3x over-fetch returns only decided rows even
though an undecided candidate exists further down. -/
def shortfallStore : Store :=
  ⟨[⟨"e1", some 4, 1, 0, 0⟩, ⟨"e2", some 3, 2, 0, 0⟩,
    ⟨"e3", some 2, 3, 0, 0⟩, ⟨"e4", some 1, 4, 0, 0⟩],
   [],
   [⟨"u", "e1", SwipeAction.left⟩, ⟨"u", "e2", SwipeAction.left⟩,
    ⟨"u", "e3", SwipeAction.left⟩]⟩

/-! ### Helper lemmas about the feed query -/

lemma not_swiped_of_mem_getUnswiped {s : Store} {u : String} {opts : FeedOptions}
    {r : Restaurant} (h : r ∈ getUnswipedRestaurants s u opts) :
    r.id ∉ swipedIds s u := by
  unfold getUnswipedRestaurants at h
  have h1 := List.mem_of_mem_take h
  exact of_decide_eq_true (List.mem_filter.mp h1).2

lemma locFilter_sublist (opts : FeedOptions) (rs : List Restaurant) :
    (locFilter opts rs).Sublist rs := by
  obtain ⟨olat, olon, olim⟩ := opts
  cases olat <;> cases olon <;>
    first
      | exact List.Sublist.refl rs
      | exact List.filter_sublist rs

lemma getUnswiped_sublist_sorted (s : Store) (u : String) (opts : FeedOptions) :
    (getUnswipedRestaurants s u opts).Sublist
      (List.insertionSort feedBefore (locFilter opts s.restaurants)) := by
  unfold getUnswipedRestaurants rawFetch
  exact ((List.take_sublist _ _).trans (List.filter_sublist _)).trans
    (List.take_sublist _ _)

lemma getUnswiped_map_nodup {s : Store} {u : String} {opts : FeedOptions}
    (hdb : (s.restaurants.map Restaurant.id).Nodup) :
    ((getUnswipedRestaurants s u opts).map Restaurant.id).Nodup := by
  have hloc : ((locFilter opts s.restaurants).map Restaurant.id).Nodup :=
    List.Nodup.sublist (List.Sublist.map Restaurant.id (locFilter_sublist opts s.restaurants)) hdb
  have hsort : ((List.insertionSort feedBefore (locFilter opts s.restaurants)).map
      Restaurant.id).Nodup :=
    (List.Perm.map Restaurant.id
      (List.perm_insertionSort feedBefore (locFilter opts s.restaurants))).symm.nodup hloc
  exact List.Nodup.sublist
    (List.Sublist.map Restaurant.id (getUnswiped_sublist_sorted s u opts)) hsort

/-! ### Helper lemmas about the decision store -/

lemma swipedIds_set_saved (s : Store) (v : List SavedRecord) (u : String) :
    swipedIds { s with saved := v } u = swipedIds s u := rfl

lemma saveHistoryStep_eq (s : Store) (u r : String) :
    saveHistoryStep s u r =
      (if r ∈ swipedIds s u then s
       else { s with history := s.history ++ [⟨u, r, SwipeAction.right⟩] },
       Except.ok ()) := by
  unfold saveHistoryStep insertHistory
  by_cases h : r ∈ swipedIds s u <;> simp [h, dupErr]

lemma saveRestaurant_eq (s : Store) (u r : String) :
    saveRestaurant s u r =
      saveHistoryStep
        (if SavedRecord.mk u r ∈ s.saved then s
         else { s with saved := s.saved ++ [⟨u, r⟩] }) u r := by
  unfold saveRestaurant insertSaved
  by_cases h : SavedRecord.mk u r ∈ s.saved <;> simp [h, dupErr]

lemma skipRestaurant_eq (s : Store) (u r : String) :
    skipRestaurant s u r =
      (if r ∈ swipedIds s u then s
       else { s with history := s.history ++ [⟨u, r, SwipeAction.left⟩] },
       Except.ok ()) := by
  unfold skipRestaurant insertHistory
  by_cases h : r ∈ swipedIds s u <;> simp [h, dupErr]

lemma saveRestaurant_snd (s : Store) (u r : String) :
    (saveRestaurant s u r).2 = Except.ok () := by
  rw [saveRestaurant_eq, saveHistoryStep_eq]

lemma skipRestaurant_snd (s : Store) (u r : String) :
    (skipRestaurant s u r).2 = Except.ok () := by
  rw [skipRestaurant_eq]

lemma saveRestaurant_fst_history (s : Store) (u r : String) :
    (saveRestaurant s u r).1.history =
      if r ∈ swipedIds s u then s.history
      else s.history ++ [⟨u, r, SwipeAction.right⟩] := by
  rw [saveRestaurant_eq, saveHistoryStep_eq]
  by_cases hs : SavedRecord.mk u r ∈ s.saved <;>
    by_cases hh : r ∈ swipedIds s u <;>
    simp [hs, hh, swipedIds_set_saved]

lemma skipRestaurant_fst_history (s : Store) (u r : String) :
    (skipRestaurant s u r).1.history =
      if r ∈ swipedIds s u then s.history
      else s.history ++ [⟨u, r, SwipeAction.left⟩] := by
  rw [skipRestaurant_eq]
  by_cases hh : r ∈ swipedIds s u <;> simp [hh]

lemma saveRestaurant_fst_saved (s : Store) (u r : String) :
    (saveRestaurant s u r).1.saved =
      if SavedRecord.mk u r ∈ s.saved then s.saved else s.saved ++ [⟨u, r⟩] := by
  rw [saveRestaurant_eq, saveHistoryStep_eq]
  by_cases hs : SavedRecord.mk u r ∈ s.saved <;>
    by_cases hh : r ∈ swipedIds s u <;>
    simp [hs, hh, swipedIds_set_saved]

lemma skipRestaurant_fst_saved (s : Store) (u r : String) :
    (skipRestaurant s u r).1.saved = s.saved := by
  rw [skipRestaurant_eq]
  by_cases hh : r ∈ swipedIds s u <;> simp [hh]

lemma swipedIds_def (s : Store) (u : String) :
    swipedIds s u =
      (s.history.filter fun rec => decide (rec.userId = u)).map
        (·.restaurantId) := rfl

lemma saveRestaurant_swipedIds (s : Store) (u r : String) :
    swipedIds (saveRestaurant s u r).1 u =
      if r ∈ swipedIds s u then swipedIds s u else swipedIds s u ++ [r] := by
  rw [swipedIds_def, saveRestaurant_fst_history]
  by_cases hh : r ∈ swipedIds s u
  · rw [if_pos hh, if_pos hh, swipedIds_def]
  · rw [if_neg hh, if_neg hh, List.filter_append, List.map_append, ← swipedIds_def]
    simp

lemma skipRestaurant_swipedIds (s : Store) (u r : String) :
    swipedIds (skipRestaurant s u r).1 u =
      if r ∈ swipedIds s u then swipedIds s u else swipedIds s u ++ [r] := by
  rw [swipedIds_def, skipRestaurant_fst_history]
  by_cases hh : r ∈ swipedIds s u
  · rw [if_pos hh, if_pos hh, swipedIds_def]
  · rw [if_neg hh, if_neg hh, List.filter_append, List.map_append, ← swipedIds_def]
    simp

/-! ### Helper lemmas about the navigator and the service operations -/

lemma handleSwipeWith_of_lt {st : NavState} (res : Except String Unit)
    (h : st.currentIndex < st.restaurants.length) :
    handleSwipeWith st res =
      match res with
      | Except.ok _ => ({ st with currentIndex := st.currentIndex + 1 }, none)
      | Except.error _ => (st, some alertMsg) := by
  unfold handleSwipeWith
  rw [if_pos h]

lemma handleSwipeWith_of_ge {st : NavState} (res : Except String Unit)
    (h : ¬ st.currentIndex < st.restaurants.length) :
    handleSwipeWith st res = (st, none) := by
  unfold handleSwipeWith
  rw [if_neg h]

lemma handleSwipeWith_fst_restaurants (st : NavState) (res : Except String Unit) :
    ((handleSwipeWith st res).1).restaurants = st.restaurants := by
  by_cases h : st.currentIndex < st.restaurants.length
  · rw [handleSwipeWith_of_lt res h]
    cases res <;> rfl
  · rw [handleSwipeWith_of_ge res h]

lemma handleSwipeWith_cursor_mono (st : NavState) (res : Except String Unit) :
    st.currentIndex ≤ ((handleSwipeWith st res).1).currentIndex := by
  by_cases h : st.currentIndex < st.restaurants.length
  · rw [handleSwipeWith_of_lt res h]
    cases res with
    | error e => exact le_refl _
    | ok v => exact Nat.le_succ _
  · rw [handleSwipeWith_of_ge res h]

lemma handleSwipeWith_cursor_le (st : NavState) (res : Except String Unit)
    (h : st.currentIndex ≤ st.restaurants.length) :
    ((handleSwipeWith st res).1).currentIndex ≤
      ((handleSwipeWith st res).1).restaurants.length := by
  by_cases hlt : st.currentIndex < st.restaurants.length
  · rw [handleSwipeWith_of_lt res hlt]
    cases res with
    | error e => exact le_of_lt hlt
    | ok v => exact Nat.succ_le_of_lt hlt
  · rw [handleSwipeWith_of_ge res hlt]
    exact h

lemma applyOps_cons (st : NavState) (op : NavOp) (ops : List NavOp) :
    applyOps st (op :: ops) = applyOps (applyOp st op) ops := rfl

lemma applyOps_cursor_le (ops : List NavOp)
    (hops : ∀ op ∈ ops, isLoadFail op = false) :
    ∀ st : NavState, st.currentIndex ≤ st.restaurants.length →
      (applyOps st ops).currentIndex ≤ (applyOps st ops).restaurants.length := by
  induction ops with
  | nil => exact fun st h => h
  | cons op rest ih =>
    intro st h
    rw [applyOps_cons]
    refine ih (fun o ho => hops o (List.mem_cons_of_mem op ho)) _ ?_
    cases op with
    | loadOk feed => exact Nat.zero_le _
    | loadFail =>
      have := hops NavOp.loadFail (List.mem_cons_self _ _)
      simp [isLoadFail] at this
    | swipe res => exact handleSwipeWith_cursor_le st res h

lemma applyOps_queue_nodup (ops : List NavOp)
    (hops : ∀ feed, NavOp.loadOk feed ∈ ops → (feed.map Restaurant.id).Nodup) :
    ∀ st : NavState, (st.restaurants.map Restaurant.id).Nodup →
      ((applyOps st ops).restaurants.map Restaurant.id).Nodup := by
  induction ops with
  | nil => exact fun st h => h
  | cons op rest ih =>
    intro st h
    rw [applyOps_cons]
    refine ih (fun f hf => hops f (List.mem_cons_of_mem op hf)) _ ?_
    cases op with
    | loadOk feed => exact hops feed (List.mem_cons_self _ _)
    | loadFail => simp [applyOp]
    | swipe res =>
      show (((handleSwipeWith st res).1).restaurants.map Restaurant.id).Nodup
      rw [handleSwipeWith_fst_restaurants]
      exact h

lemma insertRespLogic_error {err : Option String} {c : String}
    (h : insertRespLogic err = Except.error c) : c ≠ dupErr := by
  cases err with
  | none => exact absurd h (by simp [insertRespLogic])
  | some code =>
    simp only [insertRespLogic] at h
    by_cases hc : code ≠ dupErr
    · rw [if_pos hc] at h
      cases h
      exact hc
    · rw [if_neg hc] at h
      exact Except.noConfusion h

lemma saveRestaurantLogic_error {e1 e2 : Option String} {c : String}
    (h : saveRestaurantLogic e1 e2 = Except.error c) : c ≠ dupErr := by
  unfold saveRestaurantLogic at h
  cases hr : insertRespLogic e1 with
  | error code =>
    rw [hr] at h
    cases h
    exact insertRespLogic_error hr
  | ok _ =>
    rw [hr] at h
    exact insertRespLogic_error h

lemma applyService_history_sublist (s : Store) (op : ServiceOp) :
    s.history.Sublist (applyService s op).history := by
  cases op with
  | save u r =>
    show s.history.Sublist (saveRestaurant s u r).1.history
    rw [saveRestaurant_fst_history]
    by_cases hh : r ∈ swipedIds s u
    · rw [if_pos hh]
    · rw [if_neg hh]
      exact List.sublist_append_left _ _
  | skip u r =>
    show s.history.Sublist (skipRestaurant s u r).1.history
    rw [skipRestaurant_fst_history]
    by_cases hh : r ∈ swipedIds s u
    · rw [if_pos hh]
    · rw [if_neg hh]
      exact List.sublist_append_left _ _
  | removeSaved u r => exact List.Sublist.refl _
  | getUnswiped u opts => exact List.Sublist.refl _
  | getSaved u => exact List.Sublist.refl _
  | getSavedCount u => exact List.Sublist.refl _
  | isSaved u r => exact List.Sublist.refl _
  | isSwiped u r => exact List.Sublist.refl _
  | getHistory u limit => exact List.Sublist.refl _

lemma swipedIds_mono {s t : Store} (h : s.history.Sublist t.history)
    (u : String) : (swipedIds s u).Sublist (swipedIds t u) := by
  rw [swipedIds_def, swipedIds_def]
  exact List.Sublist.map _ (List.Sublist.filter _ h)

/-! ### Claim theorems -/

/-- Claim C1: for every user and every call to `getUnswipedRestaurants`, no
candidate whose identifier is in the user's decided-set (the swiped ids
fetched at the start of the call) appears in the returned list. -/
theorem C1_no_repeats (s : Store) (u : String) (opts : FeedOptions)
    (r : Restaurant) (h : r ∈ getUnswipedRestaurants s u opts) :
    r.id ∉ swipedIds s u :=
  not_swiped_of_mem_getUnswiped h

/-- Witness for C1 at a concrete store: candidate A is returned and indeed
outside the decided-set. -/
theorem C1_no_repeats_witness :
    candA ∈ getUnswipedRestaurants scenarioStore "u" (noLoc 2) ∧
    candA.id ∉ swipedIds scenarioStore "u" :=
  ⟨by decide, C1_no_repeats scenarioStore "u" (noLoc 2) candA (by decide)⟩

/-- Claim C2: recording a decision is idempotent.  A uniqueness-constraint
conflict (code 23505) from either insert is treated as success, any other
store error code is surfaced as an error, and recording the same decision
twice in a row on the modelled store succeeds both times and leaves the
candidate in the decided-set exactly once. -/
theorem C2_recordDecision_idempotent (s : Store) (u r : String)
    (hfresh : r ∉ swipedIds s u) :
    saveRestaurantLogic (some dupErr) none = Except.ok () ∧
    saveRestaurantLogic none (some dupErr) = Except.ok () ∧
    skipRestaurantLogic (some dupErr) = Except.ok () ∧
    (∀ c, c ≠ dupErr →
      saveRestaurantLogic (some c) none = Except.error c ∧
      saveRestaurantLogic none (some c) = Except.error c ∧
      skipRestaurantLogic (some c) = Except.error c) ∧
    (saveRestaurant s u r).2 = Except.ok () ∧
    (saveRestaurant (saveRestaurant s u r).1 u r).2 = Except.ok () ∧
    (swipedIds (saveRestaurant (saveRestaurant s u r).1 u r).1 u).count r = 1 ∧
    (skipRestaurant s u r).2 = Except.ok () ∧
    (skipRestaurant (skipRestaurant s u r).1 u r).2 = Except.ok () ∧
    (swipedIds (skipRestaurant (skipRestaurant s u r).1 u r).1 u).count r = 1 := by
  have h1 : swipedIds (saveRestaurant s u r).1 u = swipedIds s u ++ [r] := by
    rw [saveRestaurant_swipedIds, if_neg hfresh]
  have h2 : swipedIds (skipRestaurant s u r).1 u = swipedIds s u ++ [r] := by
    rw [skipRestaurant_swipedIds, if_neg hfresh]
  have hmem : r ∈ swipedIds s u ++ [r] :=
    List.mem_append_right _ (List.mem_singleton.mpr rfl)
  have hcount : (swipedIds s u ++ [r]).count r = 1 := by
    rw [List.count_append, List.count_eq_zero.mpr hfresh]
    simp
  have h3 : swipedIds (saveRestaurant (saveRestaurant s u r).1 u r).1 u =
      swipedIds s u ++ [r] := by
    rw [saveRestaurant_swipedIds, h1, if_pos hmem]
  have h4 : swipedIds (skipRestaurant (skipRestaurant s u r).1 u r).1 u =
      swipedIds s u ++ [r] := by
    rw [skipRestaurant_swipedIds, h2, if_pos hmem]
  refine ⟨rfl, rfl, rfl, fun c hc => ?_, saveRestaurant_snd s u r,
    saveRestaurant_snd _ u r, by rw [h3]; exact hcount, skipRestaurant_snd s u r,
    skipRestaurant_snd _ u r, by rw [h4]; exact hcount⟩
  refine ⟨?_, ?_, ?_⟩ <;>
    simp [saveRestaurantLogic, skipRestaurantLogic, insertRespLogic, if_pos hc]

/-- Witness for C2: saving candidate A twice from the scenario store
succeeds and leaves "A" in the decided-set exactly once. -/
theorem C2_recordDecision_idempotent_witness :
    "A" ∉ swipedIds scenarioStore "u" ∧
    (saveRestaurant scenarioStore "u" "A").2 = Except.ok () ∧
    (saveRestaurant (saveRestaurant scenarioStore "u" "A").1 "u" "A").2 =
      Except.ok () ∧
    (swipedIds (saveRestaurant (saveRestaurant scenarioStore "u" "A").1
      "u" "A").1 "u").count "A" = 1 := by
  have h := C2_recordDecision_idempotent scenarioStore "u" "A" (by decide)
  exact ⟨by decide, h.2.2.2.2.1, h.2.2.2.2.2.1, h.2.2.2.2.2.2.1⟩

/-- Claim C3: for the scenario source [A(rank 5), B(rank 3), C(rank 3),
D(rank 1)] with decided-set containing B, the feed call with page size 2
requests at most 6 raw candidates, filters out B, and returns exactly
[A, C] in that order. -/
theorem C3_refill_scenario :
    getUnswipedRestaurants scenarioStore "u" (noLoc 2) = [candA, candC] ∧
    (rawFetch scenarioStore (noLoc 2)).length ≤ 2 * 3 := by decide

/-- Counterexample to claim C4: the code performs one fetch of 3x the page
size and never retries with a grown multiplier, so with page size 1 and a
decided-set covering the whole ranked 3x prefix it returns no candidates
even though an undecided candidate exists in the source. -/
theorem C4_overfetch_counterexample :
    getUnswipedRestaurants shortfallStore "u" (noLoc 1) = [] ∧
    1 ≤ (shortfallStore.restaurants.filter fun r =>
      decide (r.id ∉ swipedIds shortfallStore "u")).length := by decide

/-- Claim C4 (amended): the feed performs a single over-fetched request of
at most 3x the page size with no geometric retry; the number of returned
candidates is min(targetSize, number of undecided candidates in that one
fetched page), so the call can return fewer than targetSize undecided
candidates even when the source holds more. -/
theorem C4_single_overfetch (s : Store) (u : String) (opts : FeedOptions) :
    (getUnswipedRestaurants s u opts).length =
      min opts.limit
        ((rawFetch s opts).filter fun r => decide (r.id ∉ swipedIds s u)).length ∧
    (rawFetch s opts).length ≤ opts.limit * 3 := by
  constructor
  · unfold getUnswipedRestaurants
    rw [List.length_take]
  · unfold rawFetch
    rw [List.length_take]
    exact min_le_left _ _

/-- Claim C5: a gesture sample whose absolute primary-axis translation
exceeds the threshold 120 classifies by the sign of that translation
(positive accepts, negative rejects); otherwise it cancels; and the
classification depends only on the primary-axis translation, never on
velocity. -/
theorem C5_gesture_classification (e : GestureEvent) :
    (|e.translationX| > SWIPE_THRESHOLD →
      ((0 < e.translationX → classifyGesture e = SwipeOutcome.accept) ∧
        (e.translationX < 0 → classifyGesture e = SwipeOutcome.reject))) ∧
    (¬ |e.translationX| > SWIPE_THRESHOLD →
      classifyGesture e = SwipeOutcome.cancel) ∧
    (∀ f : GestureEvent, f.translationX = e.translationX →
      classifyGesture f = classifyGesture e) := by
  refine ⟨fun hth => ⟨fun hpos => ?_, fun hneg => ?_⟩, fun hth => ?_,
    fun f hf => ?_⟩
  · unfold classifyGesture
    rw [if_pos hth, if_pos hpos]
  · unfold classifyGesture
    rw [if_pos hth, if_neg (not_lt.mpr (le_of_lt hneg))]
  · unfold classifyGesture
    rw [if_neg hth]
  · unfold classifyGesture
    rw [hf]

/-- Witness for C5 at the spec's three sample gestures: (150, 5) accepts,
(-150, 5) rejects, (50, 5) cancels, whatever the velocity. -/
theorem C5_gesture_classification_witness :
    classifyGesture ⟨150, 5, 11, 7⟩ = SwipeOutcome.accept ∧
    classifyGesture ⟨-150, 5, 11, 7⟩ = SwipeOutcome.reject ∧
    classifyGesture ⟨50, 5, 11, 7⟩ = SwipeOutcome.cancel :=
  ⟨((C5_gesture_classification ⟨150, 5, 11, 7⟩).1 (by decide)).1 (by decide),
   ((C5_gesture_classification ⟨-150, 5, 11, 7⟩).1 (by decide)).2 (by decide),
   (C5_gesture_classification ⟨50, 5, 11, 7⟩).2.1 (by decide)⟩

/-- Claim C6: the swipe handler follows block-then-advance.  When a current
candidate exists, a failed record call leaves the state unchanged and
reports the failure, a successful one advances the cursor by exactly one;
and the service surfaces an error only for non-duplicate codes, so any
failure reaching the handler is a non-duplicate persistence error. -/
theorem C6_block_then_advance (st : NavState) (err : String)
    (hcur : st.currentIndex < st.restaurants.length) :
    handleSwipeWith st (Except.error err) = (st, some alertMsg) ∧
    handleSwipeWith st (Except.ok ()) =
      ({ st with currentIndex := st.currentIndex + 1 }, none) ∧
    (∀ e1 e2 c, saveRestaurantLogic e1 e2 = Except.error c → c ≠ dupErr) ∧
    (∀ e1 c, skipRestaurantLogic e1 = Except.error c → c ≠ dupErr) := by
  refine ⟨?_, ?_, fun e1 e2 c h => saveRestaurantLogic_error h,
    fun e1 c h => insertRespLogic_error h⟩
  · rw [handleSwipeWith_of_lt _ hcur]
  · rw [handleSwipeWith_of_lt _ hcur]

/-- Witness for C6: with one card loaded, a failing record call leaves the
navigator state unchanged and reports the alert. -/
theorem C6_block_then_advance_witness :
    (NavState.mk [candA] 0).currentIndex <
      (NavState.mk [candA] 0).restaurants.length ∧
    handleSwipeWith ⟨[candA], 0⟩ (Except.error "boom") =
      (⟨[candA], 0⟩, some alertMsg) ∧
    handleSwipeWith ⟨[candA], 0⟩ (Except.ok ()) = (⟨[candA], 1⟩, none) :=
  ⟨by decide, (C6_block_then_advance ⟨[candA], 0⟩ "boom" (by decide)).1,
   (C6_block_then_advance ⟨[candA], 0⟩ "boom" (by decide)).2.1⟩

/-- Counterexample to claim C7: a successful load of two cards, two
successful swipes and then a failed reload leave the cursor at 2 with an
empty queue, so `0 <= cursor <= length` does not hold in every reachable
state. -/
theorem C7_cursor_counterexample :
    ¬ ((applyOps navInit
        [NavOp.loadOk [candA, candB], NavOp.swipe (Except.ok ()),
         NavOp.swipe (Except.ok ()), NavOp.loadFail]).currentIndex ≤
      (applyOps navInit
        [NavOp.loadOk [candA, candB], NavOp.swipe (Except.ok ()),
         NavOp.swipe (Except.ok ()), NavOp.loadFail]).restaurants.length) := by
  decide

/-- Claim C7 (amended): advancing never decreases the cursor, increments it
by exactly one per successful swipe, and only when a current candidate
exists, so a swipe preserves `cursor <= length`; the cursor, a natural
number, never goes below 0 (no retreat operation exists); and in any
session whose loads all succeed every reachable state satisfies
`cursor <= length`.  (A failed reload empties the queue without resetting
the cursor, which is the sole way the bound can break.) -/
theorem C7_cursor_invariant_amended (st : NavState) (res : Except String Unit)
    (ops : List NavOp) (hops : ∀ op ∈ ops, isLoadFail op = false) :
    st.currentIndex ≤ ((handleSwipeWith st res).1).currentIndex ∧
    (st.currentIndex < st.restaurants.length →
      ((handleSwipeWith st (Except.ok ())).1).currentIndex =
        st.currentIndex + 1) ∧
    (st.currentIndex ≤ st.restaurants.length →
      ((handleSwipeWith st res).1).currentIndex ≤
        ((handleSwipeWith st res).1).restaurants.length) ∧
    (applyOps navInit ops).currentIndex ≤
      (applyOps navInit ops).restaurants.length := by
  refine ⟨handleSwipeWith_cursor_mono st res, fun h => ?_,
    handleSwipeWith_cursor_le st res,
    applyOps_cursor_le ops hops navInit (le_refl 0)⟩
  rw [handleSwipeWith_of_lt _ h]

/-- Witness for C7 (amended) on a concrete failure-free session. -/
theorem C7_cursor_invariant_witness :
    (∀ op ∈ [NavOp.loadOk [candA, candB], NavOp.swipe (Except.ok ())],
      isLoadFail op = false) ∧
    (applyOps navInit
        [NavOp.loadOk [candA, candB], NavOp.swipe (Except.ok ())]).currentIndex ≤
      (applyOps navInit
        [NavOp.loadOk [candA, candB],
         NavOp.swipe (Except.ok ())]).restaurants.length :=
  ⟨by decide,
   (C7_cursor_invariant_amended navInit (Except.ok ())
      [NavOp.loadOk [candA, candB], NavOp.swipe (Except.ok ())]
      (by decide)).2.2.2⟩

/-- Claim C8: a single feed call returns no duplicate identifiers (the
`restaurants` table being keyed by id), and across a session the queue is
replaced, never appended to, so it never holds a duplicate identifier as
long as each successful load's feed is duplicate-free. -/
theorem C8_no_duplicates (s : Store) (u : String) (opts : FeedOptions)
    (ops : List NavOp) (hdb : (s.restaurants.map Restaurant.id).Nodup)
    (hloads : ∀ feed, NavOp.loadOk feed ∈ ops →
      (feed.map Restaurant.id).Nodup) :
    ((getUnswipedRestaurants s u opts).map Restaurant.id).Nodup ∧
    ((applyOps navInit ops).restaurants.map Restaurant.id).Nodup :=
  ⟨getUnswiped_map_nodup hdb,
   applyOps_queue_nodup ops hloads navInit (by simp [navInit])⟩

/-- Witness for C8 on the scenario store and a concrete session. -/
theorem C8_no_duplicates_witness :
    ((getUnswipedRestaurants scenarioStore "u" (noLoc 20)).map
      Restaurant.id).Nodup ∧
    ((applyOps navInit [NavOp.loadOk [candA, candB]]).restaurants.map
      Restaurant.id).Nodup :=
  C8_no_duplicates scenarioStore "u" (noLoc 20) [NavOp.loadOk [candA, candB]]
    (by decide)
    (by
      intro feed hf
      simp only [List.mem_singleton] at hf
      cases hf
      decide)

/-- Claim C9: decisions are append-only.  No operation of the swipe service
removes or alters a `swipe_history` record (`removeSavedRestaurant` touches
only `saved_restaurants`), so the decided-set of every user only grows. -/
theorem C9_decisions_append_only (s : Store) (op : ServiceOp) :
    (∀ rec ∈ s.history, rec ∈ (applyService s op).history) ∧
    (∀ u x, x ∈ swipedIds s u → x ∈ swipedIds (applyService s op) u) :=
  ⟨fun _ h => (applyService_history_sublist s op).subset h,
   fun u _ hx => (swipedIds_mono (applyService_history_sublist s op) u).subset hx⟩

/-- Witness for C9: unsaving B does not remove B's swipe record, so B stays
in the decided-set. -/
theorem C9_decisions_append_only_witness :
    "B" ∈ swipedIds scenarioStore "u" ∧
    "B" ∈ swipedIds
      (applyService scenarioStore (ServiceOp.removeSaved "u" "B")) "u" :=
  ⟨by decide,
   (C9_decisions_append_only scenarioStore
      (ServiceOp.removeSaved "u" "B")).2 "u" "B" (by decide)⟩

/-- Claim C10: recording an accept for a fresh candidate writes a
`saved_restaurants` row and a `swipe_history` row with action 'right';
recording a reject writes only a `swipe_history` row with action 'left';
and since the feed filter derives the decided-set from `swipe_history`
alone, the candidate is excluded from future feeds identically in both
cases. -/
theorem C10_verdict_recording (s : Store) (u : String) (R : Restaurant)
    (opts : FeedOptions) (hfresh : R.id ∉ swipedIds s u)
    (hsaved : SavedRecord.mk u R.id ∉ s.saved) :
    (saveRestaurant s u R.id).1.saved = s.saved ++ [⟨u, R.id⟩] ∧
    (saveRestaurant s u R.id).1.history =
      s.history ++ [⟨u, R.id, SwipeAction.right⟩] ∧
    (skipRestaurant s u R.id).1.saved = s.saved ∧
    (skipRestaurant s u R.id).1.history =
      s.history ++ [⟨u, R.id, SwipeAction.left⟩] ∧
    R ∉ getUnswipedRestaurants (saveRestaurant s u R.id).1 u opts ∧
    R ∉ getUnswipedRestaurants (skipRestaurant s u R.id).1 u opts := by
  have hsave_ids : swipedIds (saveRestaurant s u R.id).1 u =
      swipedIds s u ++ [R.id] := by
    rw [saveRestaurant_swipedIds, if_neg hfresh]
  have hskip_ids : swipedIds (skipRestaurant s u R.id).1 u =
      swipedIds s u ++ [R.id] := by
    rw [skipRestaurant_swipedIds, if_neg hfresh]
  refine ⟨?_, ?_, skipRestaurant_fst_saved s u R.id, ?_, ?_, ?_⟩
  · rw [saveRestaurant_fst_saved, if_neg hsaved]
  · rw [saveRestaurant_fst_history, if_neg hfresh]
  · rw [skipRestaurant_fst_history, if_neg hfresh]
  · intro hmem
    exact not_swiped_of_mem_getUnswiped hmem
      (by rw [hsave_ids]
          exact List.mem_append_right _ (List.mem_singleton.mpr rfl))
  · intro hmem
    exact not_swiped_of_mem_getUnswiped hmem
      (by rw [hskip_ids]
          exact List.mem_append_right _ (List.mem_singleton.mpr rfl))

/-- Witness for C10: accepting candidate A from the scenario store writes
both rows, and A is excluded from the next feed. -/
theorem C10_verdict_recording_witness :
    candA.id ∉ swipedIds scenarioStore "u" ∧
    (saveRestaurant scenarioStore "u" candA.id).1.saved =
      scenarioStore.saved ++ [⟨"u", candA.id⟩] ∧
    candA ∉ getUnswipedRestaurants
      (saveRestaurant scenarioStore "u" candA.id).1 "u" (noLoc 20) :=
  ⟨by decide,
   (C10_verdict_recording scenarioStore "u" candA (noLoc 20)
      (by decide) (by decide)).1,
   (C10_verdict_recording scenarioStore "u" candA (noLoc 20)
      (by decide) (by decide)).2.2.2.2.1⟩

end SweetTreat
